import Mathlib

/-!
Shallow embedding of the Pinterest board scraper (src/pinterest_scraper.py).

Python strings are modelled as Lean String; Python str.replace (which
substitutes every non-overlapping occurrence, scanning left to right) and
the Python substring test (pat in s) are defined below on the underlying
character lists.  External capabilities (the HTTP client, the MD5 digest,
the browser driver) are modelled as oracle parameters, matching the spec's
"external collaborators" scope.
-/

/-- One step list of Python str.replace, driven by a fuel argument equal to
the length of the scanned list: at each position, if the pattern matches,
emit the replacement and skip past the matched pattern, otherwise keep the
character.  Mirrors CPython semantics for a non-empty pattern. -/
def pyReplaceFuel (pat rep : List Char) : Nat → List Char → List Char
  | 0, s => s
  | _ + 1, [] => []
  | fuel + 1, c :: cs =>
    if pat ≠ [] ∧ pat.isPrefixOf (c :: cs) then
      rep ++ pyReplaceFuel pat rep fuel (List.drop pat.length (c :: cs))
    else
      c :: pyReplaceFuel pat rep fuel cs

/-- Python s.replace(pat, rep): every non-overlapping occurrence of pat in s
is replaced by rep, scanning left to right (src line 221 and 224 call this
with pat = a size token). -/
def pyReplace (s pat rep : String) : String :=
  String.mk (pyReplaceFuel pat.data rep.data s.data.length s.data)

/-- Helper for the Python substring test: does pat occur in s? -/
def listContainsSub (pat : List Char) : List Char → Bool
  | [] => pat.isEmpty
  | c :: cs => pat.isPrefixOf (c :: cs) || listContainsSub pat cs

/-- Python pat in s (substring containment). -/
def pyContains (s pat : String) : Bool :=
  listContainsSub pat.data s.data

/-- The per-URL resolution upgrade performed by extract_image_urls under the
primary strategy (src lines 219-227): a URL containing the token 236x has
every occurrence of 236x replaced by 736x; otherwise a URL containing 564x
has every occurrence of 564x replaced by 736x; otherwise the URL is kept. -/
def upgradeResolution (src : String) : String :=
  if pyContains src "236x" then pyReplace src "236x" "736x"
  else if pyContains src "564x" then pyReplace src "564x" "736x"
  else src

/-- First-occurrence-only replacement, fuel-driven like pyReplaceFuel but
stopping after one substitution.  This is NOT what the code does; it exists
only to state the spec's prediction for comparison. -/
def replaceFirstFuel (pat rep : List Char) : Nat → List Char → List Char
  | 0, s => s
  | _ + 1, [] => []
  | fuel + 1, c :: cs =>
    if pat ≠ [] ∧ pat.isPrefixOf (c :: cs) then
      rep ++ List.drop pat.length (c :: cs)
    else
      c :: replaceFirstFuel pat rep fuel cs

/-- Modelled from the spec: replace only the first occurrence of pat. -/
def pyReplaceFirst (s pat rep : String) : String :=
  String.mk (replaceFirstFuel pat.data rep.data s.data.length s.data)

/-- Modelled from the spec: the resolution upgrade as the spec words it,
"replace the first occurrence with a known high-resolution size token". -/
def specUpgradeResolution (src : String) : String :=
  if pyContains src "236x" then pyReplaceFirst src "236x" "736x"
  else if pyContains src "564x" then pyReplaceFirst src "564x" "736x"
  else src

/-- extract_image_urls (src lines 200-243).  The page's img elements are
modelled by the list of their src attributes.  Under the primary strategy
(no timeout) the elements matched by the XPath filter (src containing
pinimg.com) are collected after the resolution upgrade; under the fallback
strategy (timedOut = true, src lines 231-238) all img srcs containing
pinimg.com are collected verbatim, with no upgrade.  Insertion into a
Python set is modelled by dedup; the final truthiness filter keeps
non-empty strings. -/
def extractImageUrls (timedOut : Bool) (srcs : List String) : List String :=
  if timedOut then
    ((srcs.filter (fun s => decide (s ≠ "") && pyContains s "pinimg.com"))).dedup
  else
    ((srcs.filter (fun s => decide (s ≠ "") && pyContains s "pinimg.com")).map
      upgradeResolution).dedup

/-- f-string formatting of the ordinal: f-string 04d zero-pads the decimal
form of the ordinal to width 4 (wider numbers print in full). -/
def pad4 (n : Nat) : String :=
  String.mk (List.replicate (4 - (toString n).length) '0') ++ toString n

/-- The filename computed at src lines 252-253.  md5hex models the external
hashlib call url - md5 hexdigest (a function of the URL alone); the code
keeps its first 8 hex characters. -/
def downloadFilename (md5hex : String → String) (num : Nat) (url : String) : String :=
  "pinterest_" ++ pad4 num ++ "_" ++ (md5hex url).take 8 ++ ".jpg"

/-- os.path.join for the shapes this program builds (a folder without a
trailing separator joined to a relative filename). -/
def pyJoin (folder filename : String) : String :=
  folder ++ "/" ++ filename

/-- Result of one HTTP GET as seen by download_image: either the request
itself raised (connection error, timeout), or a response arrived with a
status code, a flag saying whether the body decodes as a raster image, and
an abstract content identifier for the body bytes. -/
inductive NetResp
  | exc : NetResp
  | resp (status : Nat) (validImage : Bool) (content : Nat) : NetResp
deriving DecidableEq

/-- Per-URL outcome of download_image, naming the five exit paths of src
lines 245-289: already in the in-run seen set (returns False), target file
already on disk (returns True), request raised or raise_for_status raised
on a 4xx/5xx status (returns False), body failed image validation, printed
as Invalid image format (returns False), and a completed write (True). -/
inductive Outcome
  | skippedInSession : Outcome
  | skippedExists : Outcome
  | failedHttp : Outcome
  | failedInvalidFormat : Outcome
  | success : Outcome
deriving DecidableEq

/-- The boolean download_image returns for each outcome. -/
def outcomeBool : Outcome → Bool
  | .skippedExists => true
  | .success => true
  | _ => false

/-- Whether the outcome is a Failed outcome (download attempt made, no file
produced). -/
def isFailed : Outcome → Bool
  | .failedHttp => true
  | .failedInvalidFormat => true
  | _ => false

/-- Number of network requests issued on the code path of each outcome:
both skip paths return before requests.get, every other path performs
exactly one GET. -/
def netCalls : Outcome → Nat
  | .skippedInSession => 0
  | .skippedExists => 0
  | _ => 1

/-- The mutable state download_image touches: the in-run seen-URL set
(self.downloaded_urls) and the output files on disk (path paired with an
abstract content identifier of the written bytes). -/
structure DState where
  seen : List String
  files : List (String × Nat)
deriving DecidableEq

/-- Is a file with the given path present on disk (os.path.exists)? -/
def fileExists (s : DState) (path : String) : Bool :=
  s.files.any (fun f => f.1 = path)

/-- External capabilities the downloader consumes: the HTTP client and the
MD5 hex digest. -/
structure DlEnv where
  net : String → NetResp
  md5hex : String → String

/-- download_image (src lines 245-289), as a state transition returning the
outcome taken.  Path order follows the source: seen-set check, filename
computation, on-disk existence check (which marks the URL seen and returns
True), then the GET; raise_for_status raises for status 400 and above,
image validation failure returns False with nothing written, and a
validated body is written to disk before the URL is marked seen. -/
def downloadImage (env : DlEnv) (url folder : String) (num : Nat) (s : DState) :
    Outcome × DState :=
  if url ∈ s.seen then (.skippedInSession, s)
  else
    let filepath := pyJoin folder (downloadFilename env.md5hex num url)
    if fileExists s filepath then
      (.skippedExists, { s with seen := url :: s.seen })
    else
      match env.net url with
      | .exc => (.failedHttp, s)
      | .resp status valid content =>
        if 400 ≤ status then (.failedHttp, s)
        else if !valid then (.failedInvalidFormat, s)
        else (.success, { seen := url :: s.seen, files := (filepath, content) :: s.files })

/-- The download loop of scrape_board (src lines 331-338) instrumented with
the outcome of every iteration: URLs are offered one at a time, enumerated
from a starting ordinal, each iteration threading the state produced by the
previous one. -/
def runBatch (env : DlEnv) (folder : String) : List String → Nat → DState →
    List Outcome × DState
  | [], _, s => ([], s)
  | u :: us, i, s =>
    let r := downloadImage env u folder i s
    let rest := runBatch env folder us (i + 1) r.2
    (r.1 :: rest.1, rest.2)

/-- The same loop as the code writes it (src lines 329-338): a successful
counter incremented exactly when download_image returns True. -/
def downloadLoop (env : DlEnv) (folder : String) : List String → Nat → DState →
    Nat × DState
  | [], _, s => (0, s)
  | u :: us, i, s =>
    let r := downloadImage env u folder i s
    let rest := downloadLoop env folder us (i + 1) r.2
    ((if outcomeBool r.1 then 1 else 0) + rest.1, rest.2)

/-- The body of scroll_to_bottom (src lines 174-198).  The heights oracle
gives the value of document.body.scrollHeight at its k-th read: read 0 is
the one taken before the loop, read k (k from 1) the one taken inside
iteration k.  Arguments after the oracle: remaining loop iterations, index
of the next read, last recorded height, current no-change counter.  Returns
the number of loop iterations executed: the counter increments on an
unchanged height and the loop breaks once it reaches 3, otherwise the
counter resets and the recorded height is updated. -/
def scrollStep (heights : Nat → Nat) : Nat → Nat → Nat → Nat → Nat
  | 0, _, _, _ => 0
  | r + 1, i, last, noChange =>
    let nh := heights i
    if nh = last then
      if noChange + 1 ≥ 3 then 1
      else 1 + scrollStep heights r (i + 1) last (noChange + 1)
    else 1 + scrollStep heights r (i + 1) nh 0

/-- scroll_to_bottom: number of scroll iterations performed for a given
height oracle and scroll budget (the caller at src line 318 uses the default of 30). -/
def scrollToBottom (heights : Nat → Nat) (maxScrolls : Nat) : Nat :=
  scrollStep heights maxScrolls 1 (heights 0) 0

/-- Browser observations consumed by check_login_status (src lines
117-166).  displayed answers, for an XPath pattern, whether find_element
succeeds and the element reports is_displayed (a find_element failure is
absorbed by the per-pattern except and counts as false).  navRaises covers
an exception while loading the home page, taken by the outer except.
manualLoginResult stands for the value of the recursive re-check performed
by verify_login_after_manual after the interactive pause. -/
structure LoginEnv where
  navRaises : Bool
  displayed : String → Bool
  manualLoginResult : Bool

/-- The four XPath patterns probed for an authenticated session (src lines
127-132). -/
def loggedInIndicators : List String :=
  ["//div[@data-test-id='header-profile']",
   "//div[contains(@class, 'profile')]",
   "//a[contains(@href, '/settings/')]",
   "//button[contains(@aria-label, 'Profile')]"]

/-- The three XPath patterns probed for a login wall (src lines 144-148). -/
def loginIndicators : List String :=
  ["//button[contains(text(), 'Log in')]",
   "//div[contains(text(), 'Welcome to Pinterest')]",
   "//input[@type='email']"]

/-- check_login_status: reports false if the navigation raised; true if any
authenticated pattern is displayed; otherwise, if any login-wall pattern is
displayed, defers to the manual-login re-check; otherwise prints that the
status could not be determined and reports true. -/
def checkLoginStatus (env : LoginEnv) : Bool :=
  if env.navRaises then false
  else if loggedInIndicators.any env.displayed then true
  else if loginIndicators.any env.displayed then env.manualLoginResult
  else true

/-- How a run of scrape_board (src lines 291-353) ends. -/
inductive RunExit
  | mkdirError : RunExit
  | loginFailed : RunExit
  | redirected : RunExit
  | navError : RunExit
  | scrollError : RunExit
  | extractError : RunExit
  | noImages : RunExit
  | completed (successful total : Nat) : RunExit
deriving DecidableEq

/-- Observable result of a run: exit taken, number of driver.quit calls
performed, and the downloader state left behind. -/
structure RunResult where
  exit : RunExit
  quits : Nat
  state : DState
deriving DecidableEq

/-- Environment of one scrape_board run.  mkdirRaises: os.makedirs at src
line 299 raises (for example the output path is occupied by a regular
file).  navRaises, scrollRaises, extractRaises: an exception escapes the
corresponding stage and is re-raised by the outer except.  currentUrl is
driver.current_url after navigating to the board; timedOut selects the
extractor's fallback strategy; pageSrcs are the src attributes of the
page's img elements. -/
structure PipeEnv where
  mkdirRaises : Bool
  login : LoginEnv
  navRaises : Bool
  currentUrl : String
  scrollRaises : Bool
  extractRaises : Bool
  timedOut : Bool
  pageSrcs : List String
  dl : DlEnv

/-- The try-block body of scrape_board: login check (early return on
false), board navigation, the redirect check on the resulting URL (early
return when the URL leaves pinterest.com or contains login), scrolling,
extraction, the empty-result early return, then the download loop with
ordinals from 1. -/
def scrapeBody (env : PipeEnv) (folder : String) (s : DState) : RunExit × DState :=
  if checkLoginStatus env.login = false then (.loginFailed, s)
  else if env.navRaises then (.navError, s)
  else if !pyContains env.currentUrl "pinterest.com" || pyContains env.currentUrl "login" then
    (.redirected, s)
  else if env.scrollRaises then (.scrollError, s)
  else if env.extractRaises then (.extractError, s)
  else
    let urls := extractImageUrls env.timedOut env.pageSrcs
    if urls = [] then (.noImages, s)
    else
      let r := downloadLoop env.dl folder urls 1 s
      (.completed r.1 urls.length, r.2)

/-- scrape_board: os.makedirs runs before the try block, so an exception
there leaves the browser open; every path that enters the try block runs
the finally clause, which calls driver.quit exactly once. -/
def scrapeBoard (env : PipeEnv) (folder : String) (s : DState) : RunResult :=
  if env.mkdirRaises then ⟨.mkdirError, 0, s⟩
  else
    let b := scrapeBody env folder s
    ⟨b.1, 1, b.2⟩

/-- C1 counterexample: the claim quantifies over both extraction
strategies, but the fallback strategy (src lines 231-238) collects the
matched source URLs verbatim, so a URL carrying the 236x token is returned
unchanged; moreover, under the primary strategy Python str.replace rewrites
every occurrence of the token, not only the first, so a URL with two
occurrences of 236x disagrees with the spec's first-occurrence-only
prediction. -/
theorem c1_counterexample :
    (extractImageUrls true ["https://i.pinimg.com/236x/abc.jpg"]
        = ["https://i.pinimg.com/236x/abc.jpg"]
      ∧ "https://i.pinimg.com/236x/abc.jpg" ≠ "https://i.pinimg.com/736x/abc.jpg")
    ∧ upgradeResolution "https://i.pinimg.com/236x/236x_cover.jpg"
        ≠ specUpgradeResolution "https://i.pinimg.com/236x/236x_cover.jpg" := by
  decide

/-- C1 (amended): under the primary strategy each collected URL is the
resolution upgrade of a page source, where the upgrade replaces every
occurrence of 236x by 736x when 236x occurs, otherwise every occurrence of
564x by 736x when 564x occurs, and otherwise returns the URL unchanged;
the spec's single-token examples hold as stated; under the fallback
strategy URLs are collected verbatim with no rewriting. -/
theorem c1_resolution_upgrade :
    (upgradeResolution "https://i.pinimg.com/236x/abc.jpg"
        = "https://i.pinimg.com/736x/abc.jpg")
    ∧ (upgradeResolution "https://i.pinimg.com/564x/abc.jpg"
        = "https://i.pinimg.com/736x/abc.jpg")
    ∧ (upgradeResolution "https://i.pinimg.com/236x/236x_cover.jpg"
        = "https://i.pinimg.com/736x/736x_cover.jpg")
    ∧ (∀ s : String, pyContains s "236x" = false → pyContains s "564x" = false →
        upgradeResolution s = s)
    ∧ (∀ (u : String) (srcs : List String),
        u ∈ extractImageUrls true srcs → u ∈ srcs)
    ∧ (∀ (u : String) (srcs : List String),
        u ∈ extractImageUrls false srcs →
          ∃ s, s ∈ srcs ∧ u = upgradeResolution s) := by
  refine ⟨by decide, by decide, by decide, ?_, ?_, ?_⟩
  · intro s h1 h2
    simp [upgradeResolution, h1, h2]
  · intro u srcs hu
    have he : extractImageUrls true srcs
        = (srcs.filter (fun s => decide (s ≠ "") && pyContains s "pinimg.com")).dedup := rfl
    rw [he] at hu
    exact (List.mem_filter.mp (List.mem_dedup.mp hu)).1
  · intro u srcs hu
    have he : extractImageUrls false srcs
        = ((srcs.filter (fun s => decide (s ≠ "") && pyContains s "pinimg.com")).map
            upgradeResolution).dedup := rfl
    rw [he] at hu
    obtain ⟨s, hs, hequ⟩ := List.mem_map.mp (List.mem_dedup.mp hu)
    exact ⟨s, (List.mem_filter.mp hs).1, hequ.symm⟩

/-- C1 witness: a URL with neither size token is returned unchanged. -/
theorem c1_witness :
    upgradeResolution "https://i.pinimg.com/originals/abc.jpg"
      = "https://i.pinimg.com/originals/abc.jpg" :=
  c1_resolution_upgrade.2.2.2.1 "https://i.pinimg.com/originals/abc.jpg"
    (by decide) (by decide)

/-- C7: the computed filename is a pure function of the ordinal and the
URL's md5 hex digest, of the exact shape the claim states; and two URLs
receive the same filename at the same ordinal only when the first 8 hex
characters of their digests coincide. -/
theorem c7_filename_deterministic :
    (∀ (md5hex : String → String) (n : Nat) (u : String),
        downloadFilename md5hex n u
          = "pinterest_" ++ pad4 n ++ "_" ++ (md5hex u).take 8 ++ ".jpg")
    ∧ (∀ (md5hex : String → String) (n : Nat) (u1 u2 : String),
        downloadFilename md5hex n u1 = downloadFilename md5hex n u2 →
        (md5hex u1).take 8 = (md5hex u2).take 8) := by
  constructor
  · intro md5hex n u
    rfl
  · intro md5hex n u1 u2 h
    unfold downloadFilename at h
    have hd := congrArg String.data h
    simp only [String.data_append] at hd
    have h1 := List.append_cancel_right hd
    have h2 := List.append_cancel_left h1
    exact String.ext h2

/-- C7 witness: with a constant digest function, two distinct URLs collide
in filename, and the theorem delivers the (trivially true) equality of
their digest characters. -/
theorem c7_witness :
    ((fun _ : String => "0123456789abcdef") "urlA").take 8
      = ((fun _ : String => "0123456789abcdef") "urlB").take 8 :=
  c7_filename_deterministic.2 (fun _ => "0123456789abcdef") 1 "urlA" "urlB" (by decide)

/-- C8: when no authenticated pattern and no login-wall pattern is
displayed, check_login_status reports true: the ambiguous state is treated
as success. -/
theorem c8_ambiguous_login_true (env : LoginEnv)
    (hn : env.navRaises = false)
    (ha : loggedInIndicators.any env.displayed = false)
    (hu : loginIndicators.any env.displayed = false) :
    checkLoginStatus env = true := by
  simp [checkLoginStatus, hn, ha, hu]

/-- C8 witness: a page displaying none of the probed patterns. -/
theorem c8_witness :
    checkLoginStatus ⟨false, fun _ => false, false⟩ = true :=
  c8_ambiguous_login_true ⟨false, fun _ => false, false⟩ rfl (by decide) (by decide)

/-- The scroll loop never performs more iterations than its remaining
budget. -/
theorem scrollStep_le (heights : Nat → Nat) :
    ∀ r i last nc : Nat, scrollStep heights r i last nc ≤ r := by
  intro r
  induction r with
  | zero => intro i last nc; simp [scrollStep]
  | succ r ih =>
    intro i last nc
    simp only [scrollStep]
    split
    · split
      · omega
      · have := ih (i + 1) last (nc + 1); omega
    · have := ih (i + 1) (heights i) 0; omega

/-- Once the recorded height equals the value all remaining reads will
report, the loop runs at most 3 - nc further iterations before the
no-change counter reaches 3. -/
theorem scrollStep_stable (heights : Nat → Nat) (c : Nat) :
    ∀ r i nc : Nat, nc ≤ 2 → (∀ j, i ≤ j → heights j = c) →
      scrollStep heights r i c nc ≤ 3 - nc := by
  intro r
  induction r with
  | zero => intro i nc h2 hs; simp [scrollStep]
  | succ r ih =>
    intro i nc h2 hs
    have hc : heights i = c := hs i (Nat.le_refl i)
    simp only [scrollStep]
    split
    · split
      · omega
      · have := ih (i + 1) (nc + 1) (by omega) (fun j hj => hs j (by omega))
        omega
    · exact absurd hc (by assumption)

/-- From any loop state, once every read at index tgt or beyond reports the
same height, the loop performs at most (tgt - i) + 4 further iterations. -/
theorem scrollStep_reach (heights : Nat → Nat) (c tgt : Nat)
    (hs : ∀ j, tgt ≤ j → heights j = c) :
    ∀ r i last nc : Nat, nc ≤ 2 → i ≤ tgt →
      scrollStep heights r i last nc ≤ (tgt - i) + 4 := by
  intro r
  induction r with
  | zero => intro i last nc h2 hi; simp [scrollStep]
  | succ r ih =>
    intro i last nc h2 hi
    simp only [scrollStep]
    rcases Nat.lt_or_ge i tgt with hlt | hge
    · split
      · split
        · omega
        · have := ih (i + 1) last (nc + 1) (by omega) (by omega)
          omega
      · have := ih (i + 1) (heights i) 0 (by omega) (by omega)
        omega
    · have htgt : i = tgt := Nat.le_antisymm hi hge
      have hc : heights i = c := hs i (by omega)
      split
      · rename_i heq
        split
        · omega
        · have hlast : last = c := by rw [← heq, hc]
          rw [hlast]
          have := scrollStep_stable heights c r (i + 1) (nc + 1) (by omega)
            (fun j hj => hs j (by omega))
          omega
      · rw [hc]
        have := scrollStep_stable heights c r (i + 1) 0 (by omega)
          (fun j hj => hs j (by omega))
        omega

/-- C4 counterexample: with the reads 1000, 2000, 2000, 2000, ... the
no-change counter is only 2 after the third iteration (the first iteration
resets it on the height change), so the loop does not stop at iteration 3:
it performs a fourth iteration. -/
theorem c4_counterexample :
    scrollToBottom (fun k => if k = 0 then 1000 else 2000) 30 = 4 ∧ (4 : Nat) ≠ 3 := by
  constructor
  · rfl
  · decide

/-- C4 (amended): the scroll loop performs at most maxScrolls iterations
for every height sequence; once the reported height is constant from read
index i on (i at least 1), it performs at most i + 3 iterations, stopping
when the no-change counter reaches 3; and for the reads 1000 followed by
2000 repeated, it stops after exactly 4 iterations, not 3. -/
theorem c4_scroll_termination :
    (∀ (heights : Nat → Nat) (m : Nat), scrollToBottom heights m ≤ m)
    ∧ (∀ (heights : Nat → Nat) (m c i : Nat), 1 ≤ i →
        (∀ j, i ≤ j → heights j = c) → scrollToBottom heights m ≤ i + 3)
    ∧ scrollToBottom (fun k => if k = 0 then 1000 else 2000) 30 = 4 := by
  refine ⟨?_, ?_, rfl⟩
  · intro heights m
    exact scrollStep_le heights m 1 (heights 0) 0
  · intro heights m c i h1 hs
    have := scrollStep_reach heights c i hs m 1 (heights 0) 0 (by omega) h1
    unfold scrollToBottom
    omega

/-- C4 witness: the loop on the counterexample heights is bounded by
1 + 3 = 4 iterations, since the height is constant from read 1 on. -/
theorem c4_witness :
    scrollToBottom (fun k => if k = 0 then 1000 else 2000) 30 ≤ 1 + 3 :=
  c4_scroll_termination.2.1 (fun k => if k = 0 then 1000 else 2000) 30 2000 1
    (by decide)
    (fun j hj => by
      have hj0 : j ≠ 0 := by omega
      simp [hj0])

/-- Exhaustive description of the paths of download_image: a seen URL is
skipped with no state change; an unseen URL whose file exists is skipped
with only the seen-set growing; a failed fetch (request raised, status 400
or above, or invalid body) leaves the state untouched; a successful fetch
writes exactly the computed file and marks the URL seen. -/
theorem downloadImage_cases (env : DlEnv) (url folder : String) (num : Nat) (s : DState) :
    (url ∈ s.seen ∧ downloadImage env url folder num s = (.skippedInSession, s))
    ∨ (url ∉ s.seen
        ∧ fileExists s (pyJoin folder (downloadFilename env.md5hex num url)) = true
        ∧ downloadImage env url folder num s
            = (.skippedExists, { s with seen := url :: s.seen }))
    ∨ (url ∉ s.seen
        ∧ fileExists s (pyJoin folder (downloadFilename env.md5hex num url)) = false
        ∧ isFailed (downloadImage env url folder num s).1 = true
        ∧ (downloadImage env url folder num s).2 = s)
    ∨ (url ∉ s.seen
        ∧ fileExists s (pyJoin folder (downloadFilename env.md5hex num url)) = false
        ∧ ∃ content, downloadImage env url folder num s
            = (.success, ⟨url :: s.seen,
                (pyJoin folder (downloadFilename env.md5hex num url), content) :: s.files⟩)) := by
  by_cases h1 : url ∈ s.seen
  · exact Or.inl ⟨h1, by simp [downloadImage, h1]⟩
  · by_cases h2 : fileExists s (pyJoin folder (downloadFilename env.md5hex num url)) = true
    · exact Or.inr (Or.inl ⟨h1, h2, by simp [downloadImage, h1, h2]⟩)
    · have h2f : fileExists s (pyJoin folder (downloadFilename env.md5hex num url)) = false :=
        Bool.eq_false_iff.mpr h2
      cases hnet : env.net url with
      | exc =>
        exact Or.inr (Or.inr (Or.inl ⟨h1, h2f,
          by simp [downloadImage, h1, h2f, hnet, isFailed],
          by simp [downloadImage, h1, h2f, hnet]⟩))
      | resp status valid content =>
        by_cases h4 : 400 ≤ status
        · exact Or.inr (Or.inr (Or.inl ⟨h1, h2f,
            by simp [downloadImage, h1, h2f, hnet, h4, isFailed],
            by simp [downloadImage, h1, h2f, hnet, h4]⟩))
        · cases valid with
          | false =>
            exact Or.inr (Or.inr (Or.inl ⟨h1, h2f,
              by simp [downloadImage, h1, h2f, hnet, h4, isFailed],
              by simp [downloadImage, h1, h2f, hnet, h4]⟩))
          | true =>
            exact Or.inr (Or.inr (Or.inr ⟨h1, h2f, content,
              by simp [downloadImage, h1, h2f, hnet, h4]⟩))

/-- A download_image call whose outcome is not a failure leaves the URL in
the seen set. -/
theorem downloadImage_seen_of_not_failed (env : DlEnv) (url folder : String) (num : Nat)
    (s : DState) (h : isFailed (downloadImage env url folder num s).1 = false) :
    url ∈ (downloadImage env url folder num s).2.seen := by
  rcases downloadImage_cases env url folder num s with
    ⟨h1, he⟩ | ⟨h1, h2, he⟩ | ⟨h1, h2, hf, hst⟩ | ⟨h1, h2, content, he⟩
  · rw [he]; exact h1
  · rw [he]; exact List.mem_cons_self url s.seen
  · rw [hf] at h; cases h
  · rw [he]; exact List.mem_cons_self url s.seen

/-- A fixed digest oracle for concrete instances. -/
def hexConst : String → String := fun _ => "0123456789abcdef"

/-- An HTTP oracle whose every request raises. -/
def netExc : String → NetResp := fun _ => NetResp.exc

/-- An HTTP oracle answering status 200 with a body that fails image
validation (for example an HTML error page served with 200). -/
def netBadBody : String → NetResp := fun _ => NetResp.resp 200 false 0

/-- An HTTP oracle answering status 200 with a valid image body. -/
def netOkBody : String → NetResp := fun _ => NetResp.resp 200 true 7

/-- C9: a failed download attempt is atomic: whenever the outcome is a
failure (request raised, status 400 or above, or image-decode failure) the
downloader state is exactly what it was before the attempt: the URL is not
marked seen and no file is created. -/
theorem c9_failed_download_atomic (env : DlEnv) (url folder : String) (num : Nat)
    (s : DState) (h : isFailed (downloadImage env url folder num s).1 = true) :
    (downloadImage env url folder num s).2 = s := by
  rcases downloadImage_cases env url folder num s with
    ⟨h1, he⟩ | ⟨h1, h2, he⟩ | ⟨h1, h2, hf, hst⟩ | ⟨h1, h2, content, he⟩
  · rw [he] at h; cases h
  · rw [he] at h; cases h
  · exact hst
  · rw [he] at h; cases h

/-- C9 witness: an HTTP error on a fresh state leaves the state empty. -/
theorem c9_witness :
    (downloadImage ⟨netExc, hexConst⟩ "u" "out" 1 ⟨[], []⟩).2 = ⟨[], []⟩ :=
  c9_failed_download_atomic ⟨netExc, hexConst⟩ "u" "out" 1 ⟨[], []⟩ (by decide)

/-- C2 counterexample: after a first offer that failed (here the request
raised), the URL is not in the seen set, so a second offer in the same run
repeats the network attempt instead of returning Skipped(AlreadyInSession). -/
theorem c2_counterexample :
    ((downloadImage ⟨netExc, hexConst⟩ "u" "out" 1 ⟨[], []⟩).1 = Outcome.failedHttp)
    ∧ ((downloadImage ⟨netExc, hexConst⟩ "u" "out" 2
          (downloadImage ⟨netExc, hexConst⟩ "u" "out" 1 ⟨[], []⟩).2).1
        ≠ Outcome.skippedInSession)
    ∧ netCalls (downloadImage ⟨netExc, hexConst⟩ "u" "out" 2
          (downloadImage ⟨netExc, hexConst⟩ "u" "out" 1 ⟨[], []⟩).2).1 = 1 := by
  decide

/-- C2 (amended): offering a URL a second time after a first offer that did
not fail performs no network I/O and returns Skipped(AlreadyInSession) with
the state unchanged; a failed first offer leaves the URL unseen, so a
second offer repeats the fetch. -/
theorem c2_second_offer_skipped (env : DlEnv) (url folder : String) (n1 n2 : Nat)
    (s : DState) (h : isFailed (downloadImage env url folder n1 s).1 = false) :
    (downloadImage env url folder n2 (downloadImage env url folder n1 s).2).1
        = Outcome.skippedInSession
    ∧ netCalls (downloadImage env url folder n2 (downloadImage env url folder n1 s).2).1 = 0
    ∧ (downloadImage env url folder n2 (downloadImage env url folder n1 s).2).2
        = (downloadImage env url folder n1 s).2 := by
  have hseen := downloadImage_seen_of_not_failed env url folder n1 s h
  generalize hst : (downloadImage env url folder n1 s).2 = s1 at hseen ⊢
  refine ⟨?_, ?_, ?_⟩ <;> simp [downloadImage, hseen, netCalls]

/-- C2 witness: a successful first offer makes the second offer an
in-session skip. -/
theorem c2_witness :
    (downloadImage ⟨netOkBody, hexConst⟩ "u" "out" 2
        (downloadImage ⟨netOkBody, hexConst⟩ "u" "out" 1 ⟨[], []⟩).2).1
      = Outcome.skippedInSession :=
  (c2_second_offer_skipped ⟨netOkBody, hexConst⟩ "u" "out" 1 2 ⟨[], []⟩ (by decide)).1

/-- C6: when the response for an unseen URL with no file on disk arrives
with a non-error status but a body that fails image validation, the
outcome is the invalid-image-format failure, nothing is written and the
URL stays unseen, and the batch goes on to process the remaining URLs from
the unchanged state. -/
theorem c6_invalid_image_format (env : DlEnv) (url folder : String) (num : Nat)
    (s : DState) (rest : List String) (status content : Nat)
    (h1 : url ∉ s.seen)
    (h2 : fileExists s (pyJoin folder (downloadFilename env.md5hex num url)) = false)
    (h3 : env.net url = NetResp.resp status false content)
    (h4 : status < 400) :
    (downloadImage env url folder num s).1 = Outcome.failedInvalidFormat
    ∧ (downloadImage env url folder num s).2 = s
    ∧ runBatch env folder (url :: rest) num s
        = (Outcome.failedInvalidFormat :: (runBatch env folder rest (num + 1) s).1,
           (runBatch env folder rest (num + 1) s).2) := by
  have h4n : ¬ 400 ≤ status := by omega
  have hd : downloadImage env url folder num s = (Outcome.failedInvalidFormat, s) := by
    simp [downloadImage, h1, h2, h3, h4n]
  refine ⟨by rw [hd], by rw [hd], ?_⟩
  simp [runBatch, hd]

/-- C6 witness: an HTML error page served with status 200 for a fresh URL. -/
theorem c6_witness :
    (downloadImage ⟨netBadBody, hexConst⟩ "u" "out" 1 ⟨[], []⟩).1
      = Outcome.failedInvalidFormat :=
  (c6_invalid_image_format ⟨netBadBody, hexConst⟩ "u" "out" 1 ⟨[], []⟩ ["v"] 200 0
    (by decide) (by decide) rfl (by decide)).1

/-- The successful counter kept by the scrape_board loop equals the number
of download outcomes whose returned boolean is True, and both loop forms
produce the same final state. -/
theorem downloadLoop_eq_countP (env : DlEnv) (folder : String) :
    ∀ (urls : List String) (i : Nat) (s : DState),
      (downloadLoop env folder urls i s).1
        = ((runBatch env folder urls i s).1.countP (fun o => outcomeBool o))
      ∧ (downloadLoop env folder urls i s).2 = (runBatch env folder urls i s).2 := by
  intro urls
  induction urls with
  | nil => intro i s; simp [downloadLoop, runBatch]
  | cons u us ih =>
    intro i s
    have h := ih (i + 1) (downloadImage env u folder i s).2
    by_cases hb : outcomeBool (downloadImage env u folder i s).1 = true
    · simp [downloadLoop, runBatch, h.1, h.2, List.countP_cons, hb, Nat.add_comm]
    · have hbf : outcomeBool (downloadImage env u folder i s).1 = false :=
        Bool.eq_false_iff.mpr hb
      simp [downloadLoop, runBatch, h.1, h.2, List.countP_cons, hbf]

/-- C10: the two skip paths report asymmetrically: an unseen URL whose
file already exists returns True (outcome Skipped(AlreadyExists)), a URL
already in the seen set returns False (outcome Skipped(AlreadyInSession));
and the loop's successful tally counts exactly the True-returning
outcomes, so the first skip is counted as successful and the second is
not. -/
theorem c10_skip_asymmetry :
    (∀ (env : DlEnv) (url folder : String) (num : Nat) (s : DState),
        url ∉ s.seen →
        fileExists s (pyJoin folder (downloadFilename env.md5hex num url)) = true →
        (downloadImage env url folder num s).1 = Outcome.skippedExists
          ∧ outcomeBool (downloadImage env url folder num s).1 = true)
    ∧ (∀ (env : DlEnv) (url folder : String) (num : Nat) (s : DState),
        url ∈ s.seen →
        (downloadImage env url folder num s).1 = Outcome.skippedInSession
          ∧ outcomeBool (downloadImage env url folder num s).1 = false)
    ∧ (∀ (env : DlEnv) (folder : String) (urls : List String) (i : Nat) (s : DState),
        (downloadLoop env folder urls i s).1
          = ((runBatch env folder urls i s).1.countP (fun o => outcomeBool o))) := by
  refine ⟨?_, ?_, ?_⟩
  · intro env url folder num s h1 h2
    constructor <;> simp [downloadImage, h1, h2, outcomeBool]
  · intro env url folder num s h1
    constructor <;> simp [downloadImage, h1, outcomeBool]
  · intro env folder urls i s
    exact (downloadLoop_eq_countP env folder urls i s).1

/-- C10 witness: with the target file already on disk, the skip is counted
as a True outcome. -/
theorem c10_witness :
    (downloadImage ⟨netExc, hexConst⟩ "u" "out" 1
        ⟨[], [("out/pinterest_0001_01234567.jpg", 5)]⟩).1 = Outcome.skippedExists :=
  (c10_skip_asymmetry.1 ⟨netExc, hexConst⟩ "u" "out" 1
    ⟨[], [("out/pinterest_0001_01234567.jpg", 5)]⟩ (by decide) (by decide)).1

/-- C5 counterexample: os.makedirs runs before the try block of
scrape_board, so when directory creation raises (for example the output
path names an existing regular file) the run ends with the browser never
released: zero quit calls, where the claim demands one. -/
theorem c5_counterexample :
    (scrapeBoard
        ⟨true, ⟨false, fun _ => false, false⟩, false, "https://www.pinterest.com/u/b/",
          false, false, false, [], ⟨netExc, hexConst⟩⟩
        "out" ⟨[], []⟩).quits = 0
    ∧ (0 : Nat) ≠ 1 := by
  constructor
  · rfl
  · decide

/-- C5 (amended): on every run whose output-directory creation succeeds,
the Session is released exactly once, whichever exit the pipeline takes
(login failure, redirect, scroll or extraction error, empty extraction,
completed downloads); a failure of the directory creation itself precedes
the guarded block and exits without releasing the Session. -/
theorem c5_session_released (env : PipeEnv) (folder : String) (s : DState)
    (h : env.mkdirRaises = false) :
    (scrapeBoard env folder s).quits = 1 := by
  simp [scrapeBoard, h]

/-- C5 witness: a run that aborts at the login check still quits the
browser exactly once. -/
theorem c5_witness :
    (scrapeBoard
        ⟨false, ⟨true, fun _ => false, false⟩, false, "https://www.pinterest.com/u/b/",
          false, false, false, [], ⟨netExc, hexConst⟩⟩
        "out" ⟨[], []⟩).quits = 1 :=
  c5_session_released
    ⟨false, ⟨true, fun _ => false, false⟩, false, "https://www.pinterest.com/u/b/",
      false, false, false, [], ⟨netExc, hexConst⟩⟩
    "out" ⟨[], []⟩ rfl

/-- download_image never removes a file from disk. -/
theorem downloadImage_files_mono (env : DlEnv) (url folder : String) (num : Nat)
    (s : DState) : ∀ f ∈ s.files, f ∈ (downloadImage env url folder num s).2.files := by
  intro f hf
  rcases downloadImage_cases env url folder num s with
    ⟨h1, he⟩ | ⟨h1, h2, he⟩ | ⟨h1, h2, hfl, hst⟩ | ⟨h1, h2, content, he⟩
  · rw [he]; exact hf
  · rw [he]; exact hf
  · rw [hst]; exact hf
  · rw [he]; exact List.mem_cons_of_mem _ hf

/-- download_image never removes a URL from the seen set. -/
theorem downloadImage_seen_mono (env : DlEnv) (url folder : String) (num : Nat)
    (s : DState) : ∀ u ∈ s.seen, u ∈ (downloadImage env url folder num s).2.seen := by
  intro u hu
  rcases downloadImage_cases env url folder num s with
    ⟨h1, he⟩ | ⟨h1, h2, he⟩ | ⟨h1, h2, hfl, hst⟩ | ⟨h1, h2, content, he⟩
  · rw [he]; exact hu
  · rw [he]; exact List.mem_cons_of_mem _ hu
  · rw [hst]; exact hu
  · rw [he]; exact List.mem_cons_of_mem _ hu

/-- The download loop never removes a file from disk. -/
theorem runBatch_files_mono (env : DlEnv) (folder : String) :
    ∀ (urls : List String) (i : Nat) (s : DState) (f : String × Nat),
      f ∈ s.files → f ∈ (runBatch env folder urls i s).2.files := by
  intro urls
  induction urls with
  | nil => intro i s f hf; exact hf
  | cons u us ih =>
    intro i s f hf
    exact ih (i + 1) (downloadImage env u folder i s).2 f
      (downloadImage_files_mono env u folder i s f hf)

/-- A URL of the batch that is already seen when the loop reaches its
position produces a Skipped(AlreadyInSession) outcome somewhere in the
batch. -/
theorem runBatch_skip_of_seen (env : DlEnv) (folder : String) :
    ∀ (urls : List String) (i : Nat) (s : DState) (u : String),
      u ∈ urls → u ∈ s.seen →
      Outcome.skippedInSession ∈ (runBatch env folder urls i s).1 := by
  intro urls
  induction urls with
  | nil => intro i s u hu; cases hu
  | cons v vs ih =>
    intro i s u hu hseen
    have hcons : (runBatch env folder (v :: vs) i s).1
        = (downloadImage env v folder i s).1
          :: (runBatch env folder vs (i + 1) (downloadImage env v folder i s).2).1 := rfl
    rw [hcons]
    rcases List.mem_cons.mp hu with rfl | hu'
    · have : (downloadImage env u folder i s).1 = Outcome.skippedInSession := by
        simp [downloadImage, hseen]
      rw [this]
      exact List.mem_cons_self _ _
    · exact List.mem_cons_of_mem _
        (ih (i + 1) _ u hu' (downloadImage_seen_mono env v folder i s u hseen))

/-- In a batch started on URLs none of which is yet seen, if every outcome
is Success or Skipped(AlreadyExists), the URLs are pairwise distinct and,
at the end of the batch, the file computed for each URL at its ordinal is
on disk. -/
theorem runBatch_good (env : DlEnv) (folder : String) :
    ∀ (urls : List String) (i : Nat) (s : DState),
      (∀ o ∈ (runBatch env folder urls i s).1,
          o = Outcome.success ∨ o = Outcome.skippedExists) →
      (∀ u ∈ urls, u ∉ s.seen) →
      urls.Nodup
      ∧ ∀ (j : Nat) (hj : j < urls.length),
          fileExists (runBatch env folder urls i s).2
            (pyJoin folder (downloadFilename env.md5hex (i + j) (urls.get ⟨j, hj⟩)))
            = true := by
  intro urls
  induction urls with
  | nil =>
    intro i s _ _
    exact ⟨List.nodup_nil, fun j hj => absurd hj (Nat.not_lt_zero j)⟩
  | cons u us ih =>
    intro i s houts hunseen
    have hcons : (runBatch env folder (u :: us) i s).1
        = (downloadImage env u folder i s).1
          :: (runBatch env folder us (i + 1) (downloadImage env u folder i s).2).1 := rfl
    have hstate : (runBatch env folder (u :: us) i s).2
        = (runBatch env folder us (i + 1) (downloadImage env u folder i s).2).2 := rfl
    have hr1 : (downloadImage env u folder i s).1 = Outcome.success
        ∨ (downloadImage env u folder i s).1 = Outcome.skippedExists := by
      apply houts
      rw [hcons]
      exact List.mem_cons_self _ _
    have htail : ∀ o ∈ (runBatch env folder us (i + 1) (downloadImage env u folder i s).2).1,
        o = Outcome.success ∨ o = Outcome.skippedExists := by
      intro o ho
      apply houts
      rw [hcons]
      exact List.mem_cons_of_mem _ ho
    have hu : u ∉ s.seen := hunseen u (List.mem_cons_self u us)
    have hstep : (downloadImage env u folder i s).2.seen = u :: s.seen
        ∧ fileExists (downloadImage env u folder i s).2
            (pyJoin folder (downloadFilename env.md5hex i u)) = true := by
      rcases downloadImage_cases env u folder i s with
        ⟨h1, he⟩ | ⟨h1, h2, he⟩ | ⟨h1, h2, hfl, hst⟩ | ⟨h1, h2, content, he⟩
      · exact absurd h1 hu
      · refine ⟨by rw [he], ?_⟩
        rw [he]
        exact h2
      · rcases hr1 with h | h <;> rw [h] at hfl <;> cases hfl
      · refine ⟨by rw [he], ?_⟩
        rw [he]
        simp [fileExists]
    have hunot : u ∉ us := by
      intro humem
      have hskip := runBatch_skip_of_seen env folder us (i + 1)
        (downloadImage env u folder i s).2 u humem
        (by rw [hstep.1]; exact List.mem_cons_self _ _)
      rcases htail _ hskip with h | h <;> cases h
    have htailunseen : ∀ v ∈ us, v ∉ (downloadImage env u folder i s).2.seen := by
      intro v hv
      rw [hstep.1]
      intro hmem
      rcases List.mem_cons.mp hmem with rfl | hvs
      · exact hunot hv
      · exact hunseen v (List.mem_cons_of_mem _ hv) hvs
    obtain ⟨hnd, hfiles⟩ := ih (i + 1) (downloadImage env u folder i s).2 htail htailunseen
    refine ⟨List.nodup_cons.mpr ⟨hunot, hnd⟩, ?_⟩
    intro j hj
    rw [hstate]
    cases j with
    | zero =>
      have hex : fileExists (downloadImage env u folder i s).2
          (pyJoin folder (downloadFilename env.md5hex (i + 0) u)) = true := by
        simpa using hstep.2
      rcases List.any_eq_true.mp hex with ⟨f, hf, hfp⟩
      exact List.any_eq_true.mpr
        ⟨f, runBatch_files_mono env folder us (i + 1) _ f hf, hfp⟩
    | succ k =>
      have hk : k < us.length := by
        simp only [List.length_cons] at hj
        omega
      have harith : i + (k + 1) = (i + 1) + k := by omega
      rw [harith]
      exact hfiles k hk

/-- When the URLs are pairwise distinct, none is seen yet, and the file
computed for each URL at its ordinal is already on disk, the batch skips
every URL as already existing and writes nothing. -/
theorem runBatch_all_exists (env : DlEnv) (folder : String) :
    ∀ (urls : List String) (i : Nat) (s : DState),
      urls.Nodup →
      (∀ u ∈ urls, u ∉ s.seen) →
      (∀ (j : Nat) (hj : j < urls.length),
          fileExists s
            (pyJoin folder (downloadFilename env.md5hex (i + j) (urls.get ⟨j, hj⟩)))
            = true) →
      (runBatch env folder urls i s).1 = List.replicate urls.length Outcome.skippedExists
      ∧ (runBatch env folder urls i s).2.files = s.files := by
  intro urls
  induction urls with
  | nil => intro i s _ _ _; exact ⟨rfl, rfl⟩
  | cons u us ih =>
    intro i s hnd hunseen hex
    have hu : u ∉ s.seen := hunseen u (List.mem_cons_self u us)
    have hex0 : fileExists s (pyJoin folder (downloadFilename env.md5hex i u)) = true := by
      simpa using hex 0 (by simp)
    have hd : downloadImage env u folder i s
        = (Outcome.skippedExists, { s with seen := u :: s.seen }) := by
      simp [downloadImage, hu, hex0]
    have htail := ih (i + 1) { s with seen := u :: s.seen }
      (List.nodup_cons.mp hnd).2
      (fun v hv hmem => by
        rcases List.mem_cons.mp hmem with rfl | hvs
        · exact (List.nodup_cons.mp hnd).1 hv
        · exact hunseen v (List.mem_cons_of_mem _ hv) hvs)
      (fun j hj => by
        have harith : (i + 1) + j = i + (j + 1) := by omega
        rw [harith]
        exact hex (j + 1) (by simp only [List.length_cons]; omega))
    have hcons1 : (runBatch env folder (u :: us) i s).1
        = (downloadImage env u folder i s).1
          :: (runBatch env folder us (i + 1) (downloadImage env u folder i s).2).1 := rfl
    have hcons2 : (runBatch env folder (u :: us) i s).2
        = (runBatch env folder us (i + 1) (downloadImage env u folder i s).2).2 := rfl
    constructor
    · rw [hcons1, hd]
      simp only [List.length_cons, List.replicate_succ]
      exact congrArg _ htail.1
    · rw [hcons2, hd]
      exact htail.2

/-- C3 (amended): if the first run (fresh seen set, arbitrary initial
files, ordinals from 1) ends every URL with Success or
Skipped(AlreadyExists), then a second run over the same URL list and the
same ordinals, with a fresh seen set and the disk left by the first run,
skips every URL as already existing, issues zero network requests and
leaves the set of files on disk exactly as the first run left it. -/
theorem c3_second_run_idempotent (env : DlEnv) (folder : String) (urls : List String)
    (f0 : List (String × Nat))
    (h : ∀ o ∈ (runBatch env folder urls 1 ⟨[], f0⟩).1,
        o = Outcome.success ∨ o = Outcome.skippedExists) :
    (runBatch env folder urls 1 ⟨[], (runBatch env folder urls 1 ⟨[], f0⟩).2.files⟩).1
        = List.replicate urls.length Outcome.skippedExists
    ∧ (runBatch env folder urls 1 ⟨[], (runBatch env folder urls 1 ⟨[], f0⟩).2.files⟩).2.files
        = (runBatch env folder urls 1 ⟨[], f0⟩).2.files
    ∧ ((runBatch env folder urls 1
          ⟨[], (runBatch env folder urls 1 ⟨[], f0⟩).2.files⟩).1.map netCalls).sum = 0 := by
  obtain ⟨hnd, hex⟩ := runBatch_good env folder urls 1 ⟨[], f0⟩ h (by simp)
  have hex2 : ∀ (j : Nat) (hj : j < urls.length),
      fileExists ⟨[], (runBatch env folder urls 1 ⟨[], f0⟩).2.files⟩
        (pyJoin folder (downloadFilename env.md5hex (1 + j) (urls.get ⟨j, hj⟩)))
        = true := by
    intro j hj
    exact hex j hj
  obtain ⟨houts, hfiles⟩ := runBatch_all_exists env folder urls 1
    ⟨[], (runBatch env folder urls 1 ⟨[], f0⟩).2.files⟩ hnd (by simp) hex2
  refine ⟨houts, hfiles, ?_⟩
  rw [houts]
  simp [List.map_replicate, netCalls]

/-- C3 counterexample: with a response whose body is not a valid image for
the single URL of the set, the first run writes nothing, so the second run
(fresh seen set, same disk) repeats the network request: one request, not
zero, and its outcome is not Skipped(AlreadyExists). -/
theorem c3_counterexample :
    (runBatch ⟨netBadBody, hexConst⟩ "out" ["u"] 1 ⟨[], []⟩).1
        = [Outcome.failedInvalidFormat]
    ∧ ((runBatch ⟨netBadBody, hexConst⟩ "out" ["u"] 1
          ⟨[], (runBatch ⟨netBadBody, hexConst⟩ "out" ["u"] 1 ⟨[], []⟩).2.files⟩).1.map
            netCalls).sum = 1
    ∧ (runBatch ⟨netBadBody, hexConst⟩ "out" ["u"] 1
          ⟨[], (runBatch ⟨netBadBody, hexConst⟩ "out" ["u"] 1 ⟨[], []⟩).2.files⟩).1
        ≠ [Outcome.skippedExists] := by
  decide

/-- C3 witness: a one-URL set whose download succeeds on the first run is
wholly skipped as already existing on the second. -/
theorem c3_witness :
    (runBatch ⟨netOkBody, hexConst⟩ "out" ["u"] 1
        ⟨[], (runBatch ⟨netOkBody, hexConst⟩ "out" ["u"] 1 ⟨[], []⟩).2.files⟩).1
      = List.replicate (["u"] : List String).length Outcome.skippedExists :=
  (c3_second_run_idempotent ⟨netOkBody, hexConst⟩ "out" ["u"] [] (by decide)).1
